import Mathlib

/-!
Verification development for the company-research orchestration service.

The definitions below are a shallow embedding of the Python sources:
  - `src/models/schemas.py`   (data model)
  - `src/agents/summarizer_agent.py` (citation extraction and formatting)
  - `src/agents/researcher_agent.py` (query generation, research orchestration)
  - `src/services/tavily_service.py` (search executor)
  - `src/main.py` (request endpoint)
Machine reals (Python floats used for relevance scores) are modelled as
rationals; none of the verified properties depend on float rounding.
-/

set_option maxHeartbeats 1000000

namespace CompanyResearch

/-- Data model of `SearchResult` from `src/models/schemas.py`. -/
structure SearchResult where
  title : String
  url : String
  content : String
  relevance_score : ℚ
deriving DecidableEq, Repr

/-- Data model of `ResearchResult` from `src/models/schemas.py`. -/
structure ResearchResult where
  query : String
  results : List SearchResult
deriving DecidableEq, Repr

/-- Data model of `Citation` from `src/models/schemas.py`. -/
structure Citation where
  id : String
  title : String
  url : String
  content_preview : String
deriving DecidableEq, Repr

/-- The preview text of a citation:
`search_result.content[:200] + "..." if len(search_result.content) > 200 else search_result.content`
(`summarizer_agent.py`, line 221). -/
def contentPreview (content : String) : String :=
  if 200 < content.length then content.take 200 ++ "..." else content

/-- Inner loop of `SummarizerAgent._extract_citations` (`summarizer_agent.py`,
lines 216-224): one `Citation` per search result, ids counting up from `c`. -/
def citationsFrom (c : ℕ) : List SearchResult → List Citation
  | [] => []
  | sr :: rest =>
      { id := toString c, title := sr.title, url := sr.url,
        content_preview := contentPreview sr.content } :: citationsFrom (c + 1) rest

/-- Outer loop of `SummarizerAgent._extract_citations`: for each
`ResearchResult` take `result.results[:3]` and keep a running counter. -/
def extractCitationsAux (c : ℕ) : List ResearchResult → List Citation
  | [] => []
  | r :: rest =>
      citationsFrom c (r.results.take 3) ++
        extractCitationsAux (c + (r.results.take 3).length) rest

/-- `SummarizerAgent._extract_citations` (`summarizer_agent.py`, lines 210-226):
counter starts at 1. -/
def extract_citations (rrs : List ResearchResult) : List Citation :=
  extractCitationsAux 1 rrs

/-- The search results that receive citations: the first (at most) 3 results
of each `ResearchResult`, in order. -/
def citedResults (rrs : List ResearchResult) : List SearchResult :=
  rrs.flatMap fun r => r.results.take 3

lemma citationsFrom_append (c : ℕ) (a b : List SearchResult) :
    citationsFrom c (a ++ b) = citationsFrom c a ++ citationsFrom (c + a.length) b := by
  induction a generalizing c with
  | nil => simp [citationsFrom]
  | cons sr t ih =>
      simp only [List.cons_append, citationsFrom, List.length_cons, List.append_eq, ih (c + 1)]
      rw [show c + (t.length + 1) = c + 1 + t.length by omega]

lemma extractCitationsAux_eq (c : ℕ) (rrs : List ResearchResult) :
    extractCitationsAux c rrs = citationsFrom c (citedResults rrs) := by
  induction rrs generalizing c with
  | nil => simp [extractCitationsAux, citedResults, citationsFrom]
  | cons r rest ih =>
      simp [extractCitationsAux, citedResults, citationsFrom_append, ih]

lemma citationsFrom_map_id (c : ℕ) (l : List SearchResult) :
    (citationsFrom c l).map Citation.id
      = (List.range l.length).map (fun k => toString (c + k)) := by
  induction l generalizing c with
  | nil => simp [citationsFrom]
  | cons sr t ih =>
      simp only [citationsFrom, List.map_cons, List.length_cons,
        List.range_succ_eq_map, ih (c + 1), List.map_map]
      refine congrArg₂ _ (by simp) ?_
      refine List.map_congr_left fun k _ => ?_
      simp [Function.comp, Nat.add_assoc, Nat.add_comm 1 k]

lemma citationsFrom_map_title_url (c : ℕ) (l : List SearchResult) :
    (citationsFrom c l).map (fun ct => (ct.title, ct.url))
      = l.map (fun sr => (sr.title, sr.url)) := by
  induction l generalizing c with
  | nil => simp [citationsFrom]
  | cons sr t ih => simp [citationsFrom, ih (c + 1)]

lemma citationsFrom_map_url (c : ℕ) (l : List SearchResult) :
    (citationsFrom c l).map Citation.url = l.map SearchResult.url := by
  induction l generalizing c with
  | nil => simp [citationsFrom]
  | cons sr t ih => simp [citationsFrom, ih (c + 1)]

/-- A concrete duplicated search result used to refute the dedup claim. -/
def dupResult : SearchResult :=
  ⟨"Example title", "https://example.com/page", "some content", 0⟩

/-- Two research results (for two different queries) both carrying `dupResult`,
as returned by two overlapping searches. -/
def dupRun : List ResearchResult :=
  [⟨"query one", [dupResult]⟩, ⟨"query two", [dupResult]⟩]

/-- C1 counterexample: the citation list produced by
`SummarizerAgent._extract_citations` for `dupRun` contains two distinct
citations with the *identical* URL string (hence the same URL under any
normalization), refuting the claimed dedup guarantee: no deduplication by
(normalized) URL happens anywhere in the pipeline. -/
theorem extract_citations_duplicate_url :
    ∃ c₁ c₂ : Citation,
      c₁ ∈ extract_citations dupRun ∧ c₂ ∈ extract_citations dupRun ∧
      c₁.id ≠ c₂.id ∧ c₁.url = c₂.url := by
  refine ⟨⟨"1", "Example title", "https://example.com/page", "some content"⟩,
          ⟨"2", "Example title", "https://example.com/page", "some content"⟩,
          ?_, ?_, ?_, rfl⟩ <;> decide

/-- C1 amended: citation extraction applies no URL normalization and no
deduplication — the URLs of the produced citations are exactly the URLs of the
first (at most) 3 results of each `ResearchResult`, in order, duplicates
included (so the same URL appearing in several queries yields several
citations). -/
theorem extract_citations_urls_verbatim (rrs : List ResearchResult) :
    (extract_citations rrs).map Citation.url = (citedResults rrs).map SearchResult.url := by
  simp [extract_citations, extractCitationsAux_eq, citationsFrom_map_url]

/-- C6: `SummarizerAgent._extract_citations` takes at most the first 3 search
results of each `ResearchResult` and numbers them with a single 1-based running
counter across the whole iteration — the ids are exactly the strings
`"1" .. "N"` (N = number of cited results), in (query order, within-query
order), and the k-th citation carries the title and URL of the k-th cited
result. -/
theorem extract_citations_ids_one_to_n (rrs : List ResearchResult) :
    (extract_citations rrs).map Citation.id
        = (List.range (citedResults rrs).length).map (fun k => toString (k + 1))
      ∧ (extract_citations rrs).map (fun ct => (ct.title, ct.url))
        = (citedResults rrs).map (fun sr => (sr.title, sr.url)) := by
  constructor
  · rw [extract_citations, extractCitationsAux_eq, citationsFrom_map_id]
    exact List.map_congr_left fun k _ => by rw [Nat.add_comm]
  · rw [extract_citations, extractCitationsAux_eq, citationsFrom_map_title_url]

/-- Rendering of a relevance score; models the two-decimal float formatting
used by `Relevance:` lines. None of the verified properties depend on the
rendered digits. -/
def renderScore (q : ℚ) : String := toString q

/-- The block of lines `_format_research_data_with_citations` appends for one
search result (`summarizer_agent.py`, lines 200-206): marker line, title, URL,
truncated content, and a relevance line when the score is positive. -/
def resultBlock (j c : ℕ) (sr : SearchResult) : List String :=
  ("\nResult " ++ toString j ++ " [Citation " ++ toString c ++ "]:") ::
  ("Title: " ++ sr.title) ::
  ("URL: " ++ sr.url) ::
  ("Content: " ++ sr.content.take 800 ++ "...") ::
  (if 0 < sr.relevance_score then ["Relevance: " ++ renderScore sr.relevance_score] else [])

/-- Inner loop over `result.results[:3]` with 1-based per-query index `j` and
running citation counter `c`. -/
def formatResults (j c : ℕ) : List SearchResult → List String
  | [] => []
  | sr :: rest => resultBlock j c sr ++ formatResults (j + 1) (c + 1) rest

/-- Outer loop of `_format_research_data_with_citations` (lines 193-206): `i`
is the 1-based query index (counting every `ResearchResult`, skipped or not),
`c` the running citation counter; empty result sets emit nothing. -/
def formatAux (i c : ℕ) : List ResearchResult → List String
  | [] => []
  | r :: rest =>
      if r.results.isEmpty then formatAux (i + 1) c rest
      else ("\n--- Search Query " ++ toString i ++ ": " ++ r.query ++ " ---") ::
        (formatResults 1 c (r.results.take 3) ++
          formatAux (i + 1) (c + (r.results.take 3).length) rest)

/-- `SummarizerAgent._format_research_data_with_citations`
(`summarizer_agent.py`, lines 188-208). -/
def format_research_data_with_citations (rrs : List ResearchResult) : String :=
  let lines := formatAux 1 1 rrs
  if lines.isEmpty then "No research data available."
  else String.intercalate "\n" lines

/-- Consecutive numbering of a run of search results starting at `c`. -/
def markersFrom (c : ℕ) : List SearchResult → List (ℕ × SearchResult)
  | [] => []
  | sr :: rest => (c, sr) :: markersFrom (c + 1) rest

/-- The (citation number, search result) pairs in the order in which
`_format_research_data_with_citations` labels results with `[Citation n]`
markers: the same iteration as `formatAux`, projected to the labels. -/
def formatMarkersAux (c : ℕ) : List ResearchResult → List (ℕ × SearchResult)
  | [] => []
  | r :: rest =>
      if r.results.isEmpty then formatMarkersAux c rest
      else markersFrom c (r.results.take 3) ++
        formatMarkersAux (c + (r.results.take 3).length) rest

/-- Marker labels of the whole formatted text block (counter starts at 1). -/
def formatMarkers (rrs : List ResearchResult) : List (ℕ × SearchResult) :=
  formatMarkersAux 1 rrs

lemma markersFrom_append (c : ℕ) (a b : List SearchResult) :
    markersFrom c (a ++ b) = markersFrom c a ++ markersFrom (c + a.length) b := by
  induction a generalizing c with
  | nil => simp [markersFrom]
  | cons sr t ih =>
      simp only [List.cons_append, markersFrom, List.length_cons, List.append_eq, ih (c + 1)]
      rw [show c + (t.length + 1) = c + 1 + t.length by omega]

lemma formatMarkersAux_eq (c : ℕ) (rrs : List ResearchResult) :
    formatMarkersAux c rrs = markersFrom c (citedResults rrs) := by
  induction rrs generalizing c with
  | nil => simp [formatMarkersAux, citedResults, markersFrom]
  | cons r rest ih =>
      by_cases h : r.results.isEmpty
      · have htake : r.results.take 3 = [] := by
          rw [List.isEmpty_iff] at h; simp [h]
        simp [formatMarkersAux, h, citedResults, htake, markersFrom_append, ih]
      · simp [formatMarkersAux, h, citedResults, markersFrom_append, ih]

lemma markersFrom_map (c : ℕ) (l : List SearchResult) :
    (markersFrom c l).map (fun p => (toString p.1, p.2.title, p.2.url))
      = (citationsFrom c l).map (fun ct => (ct.id, ct.title, ct.url)) := by
  induction l generalizing c with
  | nil => simp [markersFrom, citationsFrom]
  | cons sr t ih => simp [markersFrom, citationsFrom, ih (c + 1)]

lemma markersFrom_mem_formatResults (l : List SearchResult) :
    ∀ j c p, p ∈ markersFrom c l → ∃ k : ℕ,
      ("\nResult " ++ toString k ++ " [Citation " ++ toString p.1 ++ "]:")
          ∈ formatResults j c l ∧
      ("Title: " ++ p.2.title) ∈ formatResults j c l ∧
      ("URL: " ++ p.2.url) ∈ formatResults j c l := by
  induction l with
  | nil => intro j c p hp; simp [markersFrom] at hp
  | cons sr t ih =>
      intro j c p hp
      rw [markersFrom, List.mem_cons] at hp
      rcases hp with rfl | hp
      · exact ⟨j, by simp [formatResults, resultBlock],
          by simp [formatResults, resultBlock], by simp [formatResults, resultBlock]⟩
      · obtain ⟨k, h1, h2, h3⟩ := ih (j + 1) (c + 1) p hp
        exact ⟨k, by simp [formatResults, h1, h2, h3],
          by simp [formatResults, h2], by simp [formatResults, h3]⟩

lemma formatMarkers_mem_lines (rrs : List ResearchResult) :
    ∀ i c p, p ∈ formatMarkersAux c rrs → ∃ k : ℕ,
      ("\nResult " ++ toString k ++ " [Citation " ++ toString p.1 ++ "]:")
          ∈ formatAux i c rrs ∧
      ("Title: " ++ p.2.title) ∈ formatAux i c rrs ∧
      ("URL: " ++ p.2.url) ∈ formatAux i c rrs := by
  induction rrs with
  | nil => intro i c p hp; simp [formatMarkersAux] at hp
  | cons r rest ih =>
      intro i c p hp
      by_cases h : r.results.isEmpty
      · rw [formatMarkersAux, if_pos h] at hp
        obtain ⟨k, h1, h2, h3⟩ := ih (i + 1) c p hp
        exact ⟨k, by rw [formatAux, if_pos h]; exact h1,
          by rw [formatAux, if_pos h]; exact h2,
          by rw [formatAux, if_pos h]; exact h3⟩
      · rw [formatMarkersAux, if_neg h, List.mem_append] at hp
        rcases hp with hp | hp
        · obtain ⟨k, h1, h2, h3⟩ := markersFrom_mem_formatResults _ 1 c p hp
          refine ⟨k, ?_, ?_, ?_⟩ <;> rw [formatAux, if_neg h] <;>
            exact List.mem_cons_of_mem _ (List.mem_append_left _ (by assumption))
        · obtain ⟨k, h1, h2, h3⟩ := ih (i + 1) (c + (r.results.take 3).length) p hp
          refine ⟨k, ?_, ?_, ?_⟩ <;> rw [formatAux, if_neg h] <;>
            exact List.mem_cons_of_mem _ (List.mem_append_right _ (by assumption))

/-- C7: the `[Citation n]` labels embedded in the formatted research-data text
agree with the citation list: the label sequence of the text block (in order)
carries exactly the ids, titles and URLs of `_extract_citations`' output, and
for every labelled pair the marker line, `Title:` line and `URL:` line do occur
among the formatted lines of `_format_research_data_with_citations`. -/
theorem format_markers_match_citations (rrs : List ResearchResult) :
    (formatMarkers rrs).map (fun p => (toString p.1, p.2.title, p.2.url))
        = (extract_citations rrs).map (fun ct => (ct.id, ct.title, ct.url))
      ∧ ∀ p ∈ formatMarkers rrs, ∃ k : ℕ,
          ("\nResult " ++ toString k ++ " [Citation " ++ toString p.1 ++ "]:")
              ∈ formatAux 1 1 rrs ∧
          ("Title: " ++ p.2.title) ∈ formatAux 1 1 rrs ∧
          ("URL: " ++ p.2.url) ∈ formatAux 1 1 rrs := by
  refine ⟨?_, fun p hp => formatMarkers_mem_lines rrs 1 1 p hp⟩
  rw [formatMarkers, formatMarkersAux_eq, markersFrom_map,
    extract_citations, extractCitationsAux_eq]

/-- C7 witness: the first labelled result of `dupRun` is marker 1, and its
lines occur in the formatted text. -/
theorem format_markers_match_citations_witness :
    (1, dupResult) ∈ formatMarkers dupRun ∧ ∃ k : ℕ,
      ("\nResult " ++ toString k ++ " [Citation " ++ toString 1 ++ "]:")
          ∈ formatAux 1 1 dupRun ∧
      ("Title: " ++ dupResult.title) ∈ formatAux 1 1 dupRun ∧
      ("URL: " ++ dupResult.url) ∈ formatAux 1 1 dupRun :=
  ⟨by decide, (format_markers_match_citations dupRun).2 (1, dupResult) (by decide)⟩

/-- Lower-casing as used by `query.lower()` in `search_multiple`:
character-wise `Char.toLower`, which agrees with Python lower-casing on the
ASCII keywords involved. -/
def pyLower (s : String) : String := ⟨s.data.map Char.toLower⟩

/-- Boolean substring test on character lists (Python's `in` on strings). -/
def isSubListOf (pat : List Char) : List Char → Bool
  | [] => pat.isEmpty
  | c :: rest => pat.isPrefixOf (c :: rest) || isSubListOf pat rest

/-- The keyword list of `TavilyService.search_multiple`
(`tavily_service.py`, line 162). -/
def legalRiskKeywords : List String := ["dava", "olumsuz", "risk", "sorun"]

/-- `any(keyword in query.lower() for keyword in [...])` (line 162). -/
def hasLegalKeyword (q : String) : Bool :=
  legalRiskKeywords.any fun kz => isSubListOf kz.data (pyLower q).data

/-- Task expansion of `search_multiple` (lines 156-163): every query yields a
targeted-domain task `(query, True)`, and a query whose lowercase form contains
one of the legal-risk keywords additionally yields a general task on the
widened query with `use_include_domains=False`. -/
def expandTasks : List String → List (String × Bool)
  | [] => []
  | q :: rest =>
      ((q, true) ::
        (if hasLegalKeyword q
         then [(q ++ " -site:youtube.com -site:facebook.com", false)]
         else [])) ++ expandTasks rest

/-- Raw provider result object (`{title, url, content, score}` with the `get`
defaults of lines 116-122 already applied). -/
structure RawResult where
  title : String
  url : String
  content : String
  score : ℚ
deriving DecidableEq, Repr

/-- Result parsing in `TavilyService.search` (lines 114-123). -/
def parseResults (raws : List RawResult) : List SearchResult :=
  raws.map fun r => ⟨r.title, r.url, r.content, r.score⟩

/-- Outcome of one outbound Tavily call as seen by `TavilyService.search`:
the provider's raw result list, a timeout, or any other exception. -/
inductive CallOutcome
  | success (raws : List RawResult)
  | timeout
  | failure
deriving DecidableEq, Repr

/-- `TavilyService.search` (`tavily_service.py`, lines 68-135): a successful
call returns the parsed results; a timeout (line 107) or any other exception
(line 130) degrades to `ResearchResult(query, [])` instead of raising. -/
def search (query : String) : CallOutcome → ResearchResult
  | .success raws => ⟨query, parseResults raws⟩
  | .timeout => ⟨query, []⟩
  | .failure => ⟨query, []⟩

/-- `TavilyService.search_multiple` (lines 137-176): one call per expanded
task, gathered back in task order (`asyncio.gather` preserves the order of its
argument sequence regardless of completion order). `env i` is the provider's
behaviour on the i-th dispatched call. Since `search` never raises, the
`isinstance` filter of lines 169-175 keeps every element. -/
def search_multiple (env : ℕ → CallOutcome) (queries : List String) :
    List ResearchResult :=
  (expandTasks queries).enum.map fun p => search p.2.1 (env p.1)

lemma search_query (q : String) (oc : CallOutcome) : (search q oc).query = q := by
  cases oc <;> rfl

/-- C3 counterexample: for the single-query batch `["risk"]` the executor
returns two `ResearchResult`s, not one per input query — the keyword-matching
query is dispatched a second time with `-site:` exclusions appended. -/
theorem search_multiple_not_one_per_query :
    (search_multiple (fun _ => CallOutcome.failure) ["risk"]).map ResearchResult.query
        = ["risk", "risk -site:youtube.com -site:facebook.com"]
      ∧ (search_multiple (fun _ => CallOutcome.failure) ["risk"]).length
        ≠ ["risk"].length := by
  constructor <;> decide

lemma expandTasks_length (queries : List String) :
    (expandTasks queries).length = queries.length + queries.countP hasLegalKeyword := by
  induction queries with
  | nil => rfl
  | cons q rest ih =>
      rw [expandTasks, List.length_append, List.length_cons, ih, List.countP_cons]
      by_cases h : hasLegalKeyword q <;> simp [h] <;> omega

lemma expandTasks_no_keyword (queries : List String)
    (h : ∀ q ∈ queries, hasLegalKeyword q = false) :
    expandTasks queries = queries.map fun q => (q, true) := by
  induction queries with
  | nil => rfl
  | cons q rest ih =>
      have hq := h q (List.mem_cons_self q rest)
      rw [expandTasks, if_neg (by simp [hq]), List.map_cons,
        ih fun x hx => h x (List.mem_cons_of_mem _ hx)]
      rfl

lemma search_multiple_map_query (env : ℕ → CallOutcome) (queries : List String) :
    (search_multiple env queries).map ResearchResult.query
      = (expandTasks queries).map Prod.fst := by
  rw [search_multiple, List.map_map]
  have : (ResearchResult.query ∘ fun p : ℕ × (String × Bool) => search p.2.1 (env p.1))
      = (fun p : ℕ × (String × Bool) => p.2.1) := by
    funext p; exact search_query p.2.1 (env p.1)
  rw [this, show (fun p : ℕ × (String × Bool) => p.2.1)
    = (Prod.fst ∘ Prod.snd) from rfl, ← List.map_map, List.enum_map_snd]

/-- C3 amended: `search_multiple` returns exactly one `ResearchResult` per
dispatched task, in task order: each input query yields one task plus a second
widened task when its lowercase form contains one of `dava`, `olumsuz`,
`risk`, `sorun`; the output length is `#queries + #keyword-matching queries`,
and the output is one-per-query in exactly the input order whenever no query
matches those keywords. -/
theorem search_multiple_one_per_task (env : ℕ → CallOutcome) (queries : List String) :
    (search_multiple env queries).map ResearchResult.query
        = (expandTasks queries).map Prod.fst
      ∧ (search_multiple env queries).length
        = queries.length + queries.countP hasLegalKeyword
      ∧ ((∀ q ∈ queries, hasLegalKeyword q = false) →
          (search_multiple env queries).map ResearchResult.query = queries) := by
  refine ⟨search_multiple_map_query env queries, ?_, ?_⟩
  · rw [search_multiple, List.length_map, List.enum_length, expandTasks_length]
  · intro h
    rw [search_multiple_map_query, expandTasks_no_keyword queries h, List.map_map]
    exact List.map_id queries

/-- C3 amended witness: a keyword-free batch comes back one-per-query in input
order. -/
theorem search_multiple_one_per_task_witness :
    (search_multiple (fun _ => CallOutcome.timeout) ["alpha", "beta"]).map
        ResearchResult.query = ["alpha", "beta"] :=
  (search_multiple_one_per_task (fun _ => CallOutcome.timeout) ["alpha", "beta"]).2.2
    (by decide)

/-- Pointwise environment update: call `i` gets outcome `oc`, all other calls
keep their behaviour. -/
def updateEnv (env : ℕ → CallOutcome) (i : ℕ) (oc : CallOutcome) : ℕ → CallOutcome :=
  fun j => if j = i then oc else env j

/-- C4: a timed-out or failed individual call yields the value
`ResearchResult{query, results: []}` rather than an error, and making one call
of a batch time out or fail leaves the result of every other (sibling) call of
the batch unchanged. -/
theorem search_failure_empty_and_isolated (oc : CallOutcome)
    (h : oc = CallOutcome.timeout ∨ oc = CallOutcome.failure) :
    (∀ q : String, search q oc = ⟨q, []⟩)
      ∧ ∀ (env : ℕ → CallOutcome) (queries : List String) (i j : ℕ)
          (hj : j < (search_multiple (updateEnv env i oc) queries).length)
          (hj' : j < (search_multiple env queries).length), j ≠ i →
          (search_multiple (updateEnv env i oc) queries).get ⟨j, hj⟩
            = (search_multiple env queries).get ⟨j, hj'⟩ := by
  constructor
  · rcases h with h | h <;> subst h <;> intro q <;> rfl
  · intro env queries i j hj hj' hij
    simp only [search_multiple, List.get_eq_getElem, List.getElem_map,
      List.getElem_enum, updateEnv, if_neg hij]

/-- C4 witness: with the second call of the batch `["a", "risk"]` forced to
time out, the third call's result is unchanged, and a timed-out call returns
the empty result value. -/
theorem search_failure_empty_and_isolated_witness :
    search "a" CallOutcome.timeout = ⟨"a", []⟩
      ∧ (search_multiple
            (updateEnv (fun _ => CallOutcome.success []) 1 CallOutcome.timeout)
            ["a", "risk"]).get ⟨2, by decide⟩
        = (search_multiple (fun _ => CallOutcome.success []) ["a", "risk"]).get
            ⟨2, by decide⟩ :=
  ⟨(search_failure_empty_and_isolated CallOutcome.timeout (Or.inl rfl)).1 "a",
   (search_failure_empty_and_isolated CallOutcome.timeout (Or.inl rfl)).2
     (fun _ => CallOutcome.success []) ["a", "risk"] 1 2 (by decide) (by decide)
     (by decide)⟩

/-- One character-wise replacement pass, the semantics of Python's
`str.replace` for a single-character pattern. -/
def replaceChar (pat : Char) (rep : List Char) : List Char → List Char
  | [] => []
  | c :: rest => (if c = pat then rep else [c]) ++ replaceChar pat rep rest

/-- `sanitize_query_input` from `TavilyService.search_with_legal_focus`
(`tavily_service.py`, lines 190-192):
`text.replace('\\', '\\\\').replace('"', '\\"')` — both patterns are single
characters, so each pass is the character-wise substitution above. -/
def sanitize_query_input (text : String) : String :=
  ⟨replaceChar '\"' ['\\', '\"'] (replaceChar '\\' ['\\', '\\'] text.data)⟩

/-- Double-quote wrapping used by the f-string interpolations
`f'"{company_name}" ...'` of `ResearcherAgent._create_search_queries`. -/
def quoted (s : String) : String := "\"" ++ s ++ "\""

/-- Domain extraction of `researcher_agent.py` line 39:
`company_url.replace('http://', '').replace('https://', '').replace('www.', '').split('/')[0]`. -/
def extractDomain (u : String) : String :=
  ((((u.replace "http://" "").replace "https://" "").replace "www." "").splitOn "/").headD ""

/-- The three `site:`-restricted queries emitted when `company_url` is present
(`researcher_agent.py`, lines 40-42). -/
def siteQueries (u : String) : List String :=
  ["site:" ++ extractDomain u ++ " about company",
   "site:" ++ extractDomain u ++ " management team",
   "site:" ++ extractDomain u ++ " financial information"]

/-- The guard `if company_url:` (line 38) under Python truthiness: `None` and
the empty string both skip the `site:` queries. -/
def urlSiteQueries : Option String → List String
  | some u => if u.isEmpty then [] else siteQueries u
  | none => []

lemma mem_urlSiteQueries {q : String} {url : Option String}
    (h : q ∈ urlSiteQueries url) : ∃ u, url = some u ∧ q ∈ siteQueries u := by
  match url with
  | none => exact absurd h (List.not_mem_nil q)
  | some u =>
      rw [urlSiteQueries] at h
      by_cases he : u.isEmpty
      · rw [if_pos he] at h; exact absurd h (List.not_mem_nil q)
      · rw [if_neg he] at h; exact ⟨u, rfl, h⟩

/-- Python `" ".join` on a list of strings. -/
def joinSpace : List String → String
  | [] => ""
  | [a] => a
  | a :: rest => a ++ " " ++ joinSpace rest

/-- `main_partners = " ".join([f'"{partner}"' for partner in partners[:3]])`
(`researcher_agent.py`, line 77). -/
def mainPartnersStr (ps : List String) : String :=
  joinSpace ((ps.take 3).map quoted)

/-- Section 6 of `ResearcherAgent._create_search_queries` (lines 75-79):
the combined-searches category, emitted only for a non-empty partner list. -/
def combinedSearchQueries (cn : String) (ps : List String) : List String :=
  if 0 < ps.length then
    [quoted cn ++ " " ++ mainPartnersStr ps ++ " management",
     mainPartnersStr ps ++ " partnership collaboration"]
  else []

/-- `ResearcherAgent._create_search_queries` (`researcher_agent.py`,
lines 24-81), category by category in source order. -/
def create_search_queries (cn : String) (url : Option String)
    (kw ps : List String) : List String :=
  ([quoted cn ++ " company profile information",
    quoted cn ++ " corporation general information",
    quoted cn ++ " founding date capital",
    quoted cn ++ " business sector industry",
    quoted cn ++ " headquarters address facility location"]
   ++ urlSiteQueries url
   ++ kw.flatMap (fun k =>
        [quoted cn ++ " " ++ k,
         quoted cn ++ " " ++ k ++ " industry sector"])
   ++ [quoted cn ++ " financial statements balance sheet",
       quoted cn ++ " financial disclosure reports",
       quoted cn ++ " revenue profitability performance",
       quoted cn ++ " stock exchange listing shares",
       quoted cn ++ " trade registry gazette"]
   ++ ps.flatMap (fun p =>
        [quoted p ++ " " ++ quoted cn ++ " board of directors",
         quoted p ++ " businessman profile biography",
         quoted p ++ " CEO executive president",
         quoted p ++ " LinkedIn profile experience",
         quoted p ++ " news interview press"])
   ++ [quoted cn ++ " latest news 2024 2025",
       quoted cn ++ " investment project expansion",
       quoted cn ++ " export market growth",
       quoted cn ++ " technology innovation R&D"]
   ++ [quoted cn ++ " competitor analysis market share",
       quoted cn ++ " industry leader position",
       quoted cn ++ " customer reference project"]
   ++ combinedSearchQueries cn ps)

/-- Substring relation on strings (Python's `in`). -/
def Substr (pat s : String) : Prop := pat.data <:+: s.data

instance (pat s : String) : Decidable (Substr pat s) :=
  inferInstanceAs (Decidable (pat.data <:+: s.data))

lemma String.data_app (a b : String) : (a ++ b).data = a.data ++ b.data := rfl

lemma Substr.refl (p : String) : Substr p p := List.infix_rfl

lemma Substr.appendr {p s : String} (h : Substr p s) (t : String) :
    Substr p (s ++ t) := by
  rw [Substr, String.data_app]
  exact h.trans ((List.prefix_append _ _).isInfix)

lemma Substr.appendl {p s : String} (h : Substr p s) (t : String) :
    Substr p (t ++ s) := by
  rw [Substr, String.data_app]
  exact h.trans ((List.suffix_append _ _).isInfix)

lemma substr_joinSpace_head (p : String) (r : List String) :
    Substr (quoted p) (joinSpace (quoted p :: r)) := by
  cases r with
  | nil => exact Substr.refl _
  | cons b t =>
      show Substr (quoted p) (quoted p ++ " " ++ joinSpace (b :: t))
      exact ((Substr.refl _).appendr " ").appendr _

/-- C8 counterexample: with company name `A"` (a double quote in the name),
no generated query embeds the escaped, quoted company name — the very first
query interpolates the name raw, so the required escaped phrase
`"A\""` does not occur in it (nor anywhere else):
`_create_search_queries` never applies `sanitize_query_input`. -/
theorem create_search_queries_unescaped :
    ∃ q ∈ create_search_queries "A\"" none [] [],
      ¬ Substr (quoted (sanitize_query_input "A\"")) q := by
  refine ⟨quoted "A\"" ++ " company profile information", ?_, ?_⟩ <;> decide

/-- C8 amended: queries are built by raw interpolation without escaping; every
query emitted by `_create_search_queries` either embeds the unescaped company
name in double quotes, embeds an unescaped partner name in double quotes, or is
one of the three `site:`-restricted queries derived from `company_url` (which
embed no name). Escaping exists only in `sanitize_query_input`, used solely by
`search_with_legal_focus`, which the research flow never calls. -/
theorem create_search_queries_quoting (cn : String) (url : Option String)
    (kw ps : List String) :
    ∀ q ∈ create_search_queries cn url kw ps,
      Substr (quoted cn) q
        ∨ (∃ p ∈ ps, Substr (quoted p) q)
        ∨ (∃ u, url = some u ∧ q ∈ siteQueries u) := by
  intro q hq
  rw [create_search_queries] at hq
  rcases List.mem_append.1 hq with hq | hcomb
  · rcases List.mem_append.1 hq with hq | hsector
    · rcases List.mem_append.1 hq with hq | hnews
      · rcases List.mem_append.1 hq with hq | hpart
        · rcases List.mem_append.1 hq with hq | hfin
          · rcases List.mem_append.1 hq with hq | hkw
            · rcases List.mem_append.1 hq with hbasic | hsite
              · -- basic profile queries
                simp only [List.mem_cons, List.not_mem_nil, or_false] at hbasic
                rcases hbasic with rfl | rfl | rfl | rfl | rfl <;>
                  exact Or.inl ((Substr.refl _).appendr _)
              · -- site: queries
                exact Or.inr (Or.inr (mem_urlSiteQueries hsite))
            · -- keyword queries
              obtain ⟨k, _, hk⟩ := List.mem_flatMap.1 hkw
              simp only [List.mem_cons, List.not_mem_nil, or_false] at hk
              rcases hk with rfl | rfl
              · exact Or.inl (((Substr.refl _).appendr _).appendr _)
              · exact Or.inl ((((Substr.refl _).appendr _).appendr _).appendr _)
          · -- financial/legal queries
            simp only [List.mem_cons, List.not_mem_nil, or_false] at hfin
            rcases hfin with rfl | rfl | rfl | rfl | rfl <;>
              exact Or.inl ((Substr.refl _).appendr _)
        · -- per-partner queries
          obtain ⟨p, hp, hq⟩ := List.mem_flatMap.1 hpart
          simp only [List.mem_cons, List.not_mem_nil, or_false] at hq
          rcases hq with rfl | rfl | rfl | rfl | rfl
          · exact Or.inr (Or.inl ⟨p, hp, (((Substr.refl _).appendr _).appendr _).appendr _⟩)
          · exact Or.inr (Or.inl ⟨p, hp, (Substr.refl _).appendr _⟩)
          · exact Or.inr (Or.inl ⟨p, hp, (Substr.refl _).appendr _⟩)
          · exact Or.inr (Or.inl ⟨p, hp, (Substr.refl _).appendr _⟩)
          · exact Or.inr (Or.inl ⟨p, hp, (Substr.refl _).appendr _⟩)
      · -- news queries
        simp only [List.mem_cons, List.not_mem_nil, or_false] at hnews
        rcases hnews with rfl | rfl | rfl | rfl <;>
          exact Or.inl ((Substr.refl _).appendr _)
    · -- sector queries
      simp only [List.mem_cons, List.not_mem_nil, or_false] at hsector
      rcases hsector with rfl | rfl | rfl <;>
        exact Or.inl ((Substr.refl _).appendr _)
  · -- combined partner+company queries
    rw [combinedSearchQueries] at hcomb
    by_cases hps : 0 < ps.length
    · rw [if_pos hps] at hcomb
      match ps, hps with
      | p₀ :: pt, _ =>
        simp only [List.mem_cons, List.not_mem_nil, or_false] at hcomb
        rcases hcomb with rfl | rfl
        · exact Or.inl ((((Substr.refl _).appendr _).appendr _).appendr _)
        · refine Or.inr (Or.inl ⟨p₀, List.mem_cons_self _ _, ?_⟩)
          have hmp : mainPartnersStr (p₀ :: pt)
              = joinSpace (quoted p₀ :: (pt.take 2).map quoted) := rfl
          rw [hmp]
          exact (substr_joinSpace_head p₀ _).appendr _
    · rw [if_neg hps] at hcomb
      exact absurd hcomb (List.not_mem_nil q)

/-- C8 amended witness: for a concrete input, the partner-biography query
embeds the quoted partner name. -/
theorem create_search_queries_quoting_witness :
    (quoted "Jane Doe" ++ " businessman profile biography")
        ∈ create_search_queries "Acme A.S." none [] ["Jane Doe"]
      ∧ (Substr (quoted "Acme A.S.") (quoted "Jane Doe" ++ " businessman profile biography")
          ∨ (∃ p ∈ ["Jane Doe"],
              Substr (quoted p) (quoted "Jane Doe" ++ " businessman profile biography"))
          ∨ (∃ u, (none : Option String) = some u
              ∧ (quoted "Jane Doe" ++ " businessman profile biography") ∈ siteQueries u)) :=
  ⟨by decide,
   create_search_queries_quoting "Acme A.S." none [] ["Jane Doe"] _ (by decide)⟩

lemma mainPartnersStr_take (ps : List String) :
    mainPartnersStr ps = mainPartnersStr (ps.take 3) := by
  rw [mainPartnersStr, mainPartnersStr, List.take_take]
  rfl

lemma combined_queries_ne (cn a b : String) :
    quoted cn ++ " " ++ a ++ " management" ≠ b ++ " partnership collaboration" := by
  intro h
  have hd : (quoted cn ++ " " ++ a ++ " management").data.getLast?
      = (b ++ " partnership collaboration").data.getLast? := by rw [h]
  simp only [String.data_app] at hd
  rw [List.getLast?_append_of_ne_nil _ (by decide),
    List.getLast?_append_of_ne_nil _ (by decide)] at hd
  exact absurd hd (by decide)

/-- C9: for a non-empty partner list the combined-searches category of
`_create_search_queries` consists of exactly two queries; exactly one of them
is the combined partner+company query (the one interpolating the quoted
company name together with the joined quoted partner names), and the partner
names interpolated are those of `partners[:3]` only — the category is
insensitive to partners beyond the first 3. -/
theorem combined_search_queries_unique (cn : String) (ps : List String)
    (h : ps ≠ []) :
    combinedSearchQueries cn ps
        = [quoted cn ++ " " ++ mainPartnersStr ps ++ " management",
           mainPartnersStr ps ++ " partnership collaboration"]
      ∧ (combinedSearchQueries cn ps).count
          (quoted cn ++ " " ++ mainPartnersStr ps ++ " management") = 1
      ∧ mainPartnersStr ps = mainPartnersStr (ps.take 3) := by
  have hps : 0 < ps.length := List.length_pos.2 h
  refine ⟨by rw [combinedSearchQueries, if_pos hps], ?_, mainPartnersStr_take ps⟩
  rw [combinedSearchQueries, if_pos hps, List.count_cons, List.count_cons,
    List.count_nil]
  have hne := combined_queries_ne cn (mainPartnersStr ps) (mainPartnersStr ps)
  simp [hne, Ne.symm hne]

/-- C9 witness at a concrete company and single partner. -/
theorem combined_search_queries_unique_witness :
    combinedSearchQueries "Acme" ["Jane"]
        = [quoted "Acme" ++ " " ++ mainPartnersStr ["Jane"] ++ " management",
           mainPartnersStr ["Jane"] ++ " partnership collaboration"]
      ∧ (combinedSearchQueries "Acme" ["Jane"]).count
          (quoted "Acme" ++ " " ++ mainPartnersStr ["Jane"] ++ " management") = 1
      ∧ mainPartnersStr ["Jane"] = mainPartnersStr (["Jane"].take 3) :=
  combined_search_queries_unique "Acme" ["Jane"] (by decide)

/-- ESG keyword filter terms (`researcher_agent.py`, line 103). -/
def esgKeywordTerms : List String :=
  ["environment", "sustainability", "green", "carbon", "climate"]

/-- The three ESG `site:` queries under the `if company_url:` guard
(lines 94-99), with Python truthiness. -/
def urlEsgSiteQueries : Option String → List String
  | some u =>
      if u.isEmpty then []
      else ["site:" ++ extractDomain u ++ " sustainability report",
            "site:" ++ extractDomain u ++ " environmental policy",
            "site:" ++ extractDomain u ++ " ESG disclosure"]
  | none => []

/-- `ResearcherAgent._create_esg_search_queries` (`researcher_agent.py`,
lines 83-149), category by category in source order. -/
def create_esg_search_queries (cn : String) (url : Option String)
    (kw ps : List String) : List String :=
  ([quoted cn ++ " factory facility location address",
    quoted cn ++ " production center locations",
    quoted cn ++ " branch office distribution center"]
   ++ urlEsgSiteQueries url
   ++ kw.flatMap (fun k =>
        if esgKeywordTerms.any (fun t => isSubListOf t.data (pyLower k).data)
        then [quoted cn ++ " " ++ k ++ " environmental",
              quoted cn ++ " " ++ k ++ " sustainability"]
        else [])
   ++ [quoted cn ++ " sustainability report CDP",
       quoted cn ++ " integrated annual report ESG",
       quoted cn ++ " environmental performance carbon footprint",
       quoted cn ++ " TCFD SASB GRI reporting"]
   ++ [quoted cn ++ " ESG policy environmental social",
       quoted cn ++ " ISO 14001 ISO 45001 certification",
       quoted cn ++ " quality environmental management system",
       quoted cn ++ " sustainability commitment"]
   ++ [quoted cn ++ " environmental impact assessment EIA",
       quoted cn ++ " waste management recycling",
       quoted cn ++ " energy efficiency renewable",
       quoted cn ++ " water management pollution"]
   ++ [quoted cn ++ " environmental lawsuit penalty violation",
       quoted cn ++ " administrative fine EIA",
       quoted cn ++ " workplace accident employee safety",
       quoted cn ++ " worker rights union"]
   ++ (ps.take 3).flatMap (fun p =>
        [quoted p ++ " tax lawsuit court",
         quoted p ++ " bribery corruption justice",
         quoted p ++ " competition authority investigation",
         quoted p ++ " human rights ethics"])
   ++ [quoted cn ++ " climate change strategy",
       quoted cn ++ " carbon emission reduction target",
       quoted cn ++ " net zero carbon neutral",
       quoted cn ++ " green technology clean energy"]
   ++ [quoted cn ++ " corporate social responsibility project",
       quoted cn ++ " employee rights diversity",
       quoted cn ++ " local community contribution"])

/-- `Config.MAX_CONCURRENT_SEARCHES` (`config.py`, line 36). -/
def MAX_CONCURRENT_SEARCHES : ℕ := 5

/-- Data model of `CompanyResearchRequest` from `src/models/schemas.py`. -/
structure CompanyResearchRequest where
  company_name : String
  company_url : Option String
  keywords : List String
  partners : List String
  include_esg_analysis : Bool
deriving DecidableEq, Repr

/-- Data model of `ESGAnalysisResult` from `src/models/schemas.py`. -/
structure ESGAnalysisResult where
  facility_locations : String
  sustainability_reporting : String
  esg_policies : String
  environmental_management : String
  legal_issues : String
  governance_issues : String
  climate_action : String
deriving DecidableEq, Repr

/-- Data model of `CompanyResearchResponse` from `src/models/schemas.py`
(`processing_time_seconds` is wall-clock time, represented as a rational). -/
structure CompanyResearchResponse where
  company_name : String
  company_url : Option String
  keywords : List String
  partners : List String
  research_summary : String
  facility_summary : String
  sustainability_summary : String
  esg_analysis : Option ESGAnalysisResult
  citations : List Citation
  raw_research_data : List ResearchResult
  processing_time_seconds : ℚ
deriving DecidableEq, Repr

/-- Python `sep.join(l)`. -/
def joinSep (sep : String) : List String → String
  | [] => ""
  | [a] => a
  | a :: rest => a ++ sep ++ joinSep sep rest

/-- `sum(len(result.results) for result in research_results)`
(`summarizer_agent.py`, line 234). -/
def totalResults (rrs : List ResearchResult) : ℕ :=
  (rrs.map fun r => r.results.length).sum

/-- `len([r for r in research_results if r.results])` (line 235). -/
def successfulQueries (rrs : List ResearchResult) : ℕ :=
  (rrs.filter fun r => !r.results.isEmpty).length

/-- `company_url if company_url else 'Belirtilmemiş'` under Python truthiness. -/
def optUrlText : Option String → String
  | some u => if u.isEmpty then "Belirtilmemiş" else u
  | none => "Belirtilmemiş"

/-- `SummarizerAgent._create_fallback_summary` (`summarizer_agent.py`,
lines 228-258). -/
def fallback_summary (cn : String) (url : Option String) (kw ps : List String)
    (rrs : List ResearchResult) : String :=
  "# " ++ cn ++ " için Araştırma Özeti\n\n## Şirket Genel Bakış\nŞirket Adı: "
    ++ cn ++ "\nWeb Sitesi: " ++ optUrlText url
    ++ "\nAnahtar Kelimeler: " ++ (if kw.isEmpty then "Yok" else joinSep ", " kw)
    ++ "\nOrtaklar/Kurucular: " ++ joinSep ", " ps
    ++ "\n\n## Araştırma Sonuçları\n- Toplam gerçekleştirilen arama sorgusu: "
    ++ toString rrs.length
    ++ "\n- Başarılı sorgular: " ++ toString (successfulQueries rrs)
    ++ "\n- Toplam bulunan sonuç: " ++ toString (totalResults rrs)
    ++ "\n\n## Ana Bulgular\nAraştırma verileri toplandı ancak otomatik özetleme mevcut değildi. \nDetaylı bilgi için lütfen ham araştırma verilerini inceleyin.\n\n## Veri Kalitesi\n"
    ++ (if 10 < totalResults rrs then "İyi veri kapsamı" else "Sınırlı veri mevcut")
    ++ " - \n" ++ toString (successfulQueries rrs)
    ++ " başarılı sorguda toplam " ++ toString (totalResults rrs)
    ++ " arama sonucu.\n"

/-- `SummarizerAgent.summarize` (`summarizer_agent.py`, lines 125-186):
`llm n` is the n-th prose-generation call's reply (`none` models a raised
exception). The citation list is computed before the `try` block, so it is
returned whether or not prose generation succeeds; if any of the three calls
raises, the whole block falls back to the templated summary with empty
facility/sustainability texts. -/
def summarize (llm : ℕ → Option String) (cn : String) (url : Option String)
    (kw ps : List String) (rrs : List ResearchResult) :
    String × String × String × List Citation :=
  let citations := extract_citations rrs
  match llm 0, llm 1, llm 2 with
  | some r, some f, some sst => (r, f, sst, citations)
  | _, _, _ => (fallback_summary cn url kw ps rrs, "", "", citations)

/-- The parameter names of `TavilyService.search_multiple` after `self`
(`tavily_service.py`, line 137): only `queries`, and no `**kwargs`. -/
def searchMultipleParamNames : List String := ["queries"]

/-- The keyword-argument names at the call site
`search_multiple(queries, include_domains=..., exclude_domains=...)`
(`researcher_agent.py`, lines 257-261). -/
def researchSearchCallKeywords : List String := ["include_domains", "exclude_domains"]

/-- Python keyword binding: every keyword-argument name must be a parameter
name of the callee (which has no `**kwargs`), else the call raises
`TypeError`. -/
def keywordBindOk (params kwargs : List String) : Bool :=
  kwargs.all fun kz => params.contains kz

/-- A raised Python `TypeError` with its message. -/
inductive PyError
  | typeError (msg : String)
deriving DecidableEq, Repr

def searchMultipleKwMsg : String :=
  "TavilyService.search_multiple() got an unexpected keyword argument 'include_domains'"

/-- `ResearcherAgent.research` (`researcher_agent.py`, lines 151-265): builds
the query list (plus the ESG list when requested) and then calls
`search_multiple(queries, include_domains=..., exclude_domains=...)`. The
keyword arguments do not bind against the callee's signature (line 137 of
`tavily_service.py`), so the call raises `TypeError` before any search is
dispatched; the `.ok` branch is the behaviour the call would have if it
bound. -/
def researchOutcome (env : ℕ → CallOutcome) (cn : String) (url : Option String)
    (kw ps : List String) (include_esg : Bool) :
    Except PyError (List ResearchResult) :=
  let queries := create_search_queries cn url kw ps
    ++ (if include_esg then create_esg_search_queries cn url kw ps else [])
  if keywordBindOk searchMultipleParamNames researchSearchCallKeywords then
    .ok (search_multiple env queries)
  else .error (.typeError searchMultipleKwMsg)

/-- An HTTP error response (`fastapi.HTTPException`). -/
structure HTTPError where
  status_code : ℕ
  detail : String
deriving DecidableEq, Repr

def noResultsDetail : String :=
  "No research results were obtained. Please check your API keys and try again."

def esgKwMsg : String :=
  "ESGAgent.analyze_esg() got an unexpected keyword argument 'company_url'"

/-- The `/research` endpoint body from the point where `research_results` is
in hand (`main.py`, lines 84-127), with the surrounding `except Exception`
of lines 129-134. The guard at lines 84-88 fires only when the *list*
`research_results` is empty; the `HTTPException` it raises inside the `try` is
itself caught at line 129 and re-wrapped (`HTTPException` stringifies as
`"<status>: <detail>"`). When `include_esg_analysis` is set, the call at
lines 104-110 passes `company_url=`/`keywords=` keyword arguments that
`ESGAgent.analyze_esg` (`esg_agent.py`, line 51) does not accept, raising
`TypeError`, likewise caught at line 129. Wall-clock processing time is
modelled as 0. -/
def endpointAfterResearch (llm : ℕ → Option String) (req : CompanyResearchRequest)
    (rrs : List ResearchResult) : Except HTTPError CompanyResearchResponse :=
  if rrs.isEmpty then
    .error ⟨500, "An error occurred during research: 500: " ++ noResultsDetail⟩
  else
    let s := summarize llm req.company_name req.company_url req.keywords
      req.partners rrs
    if req.include_esg_analysis then
      .error ⟨500, "An error occurred during research: " ++ esgKwMsg⟩
    else
      .ok ⟨req.company_name, req.company_url, req.keywords, req.partners,
           s.1, s.2.1, s.2.2.1, none, s.2.2.2, rrs, 0⟩

/-- The `/research` endpoint `research_company` (`main.py`, lines 54-134):
step 1 invokes `ResearcherAgent.research`; any exception is converted at
lines 129-134 into a generic 500 error wrapping the message. -/
def research_company (env : ℕ → CallOutcome) (llm : ℕ → Option String)
    (req : CompanyResearchRequest) : Except HTTPError CompanyResearchResponse :=
  match researchOutcome env req.company_name req.company_url req.keywords
      req.partners req.include_esg_analysis with
  | .error (.typeError msg) =>
      .error ⟨500, "An error occurred during research: " ++ msg⟩
  | .ok rrs => endpointAfterResearch llm req rrs

/-- C2: for every input and every provider/prose behaviour,
`ResearcherAgent.research` raises `TypeError` — it passes
`include_domains`/`exclude_domains` keyword arguments that
`TavilyService.search_multiple`'s signature does not accept — so the
`/research` endpoint never returns a successful response and always answers
with the generic service-level 500 error wrapping the message. -/
theorem research_always_type_error (env : ℕ → CallOutcome)
    (llm : ℕ → Option String) (req : CompanyResearchRequest) :
    researchOutcome env req.company_name req.company_url req.keywords
        req.partners req.include_esg_analysis
        = .error (.typeError searchMultipleKwMsg)
      ∧ research_company env llm req
        = .error ⟨500, "An error occurred during research: " ++ searchMultipleKwMsg⟩ := by
  constructor
  · rw [researchOutcome]; rfl
  · rw [research_company, researchOutcome]; rfl

/-- The concrete request used to exercise the all-timeouts scenario. -/
def reqAcme : CompanyResearchRequest := ⟨"Acme", none, [], [], false⟩

/-- A prose-generation oracle whose calls all succeed. -/
def llmOk : ℕ → Option String := fun _ => some "SUMMARY"

/-- A provider under which every single search call times out. -/
def envTimeoutAll : ℕ → CallOutcome := fun _ => CallOutcome.timeout

def acmeQueries : List String := create_search_queries "Acme" none [] []

def rrsAllTimeout : List ResearchResult := search_multiple envTimeoutAll acmeQueries

/-- C5 (code bug): when *every* issued search call times out, each call
degrades to `ResearchResult(query, [])`, so `research_results` is a non-empty
list of empty result sets; the guard `if not research_results:` at
`main.py` line 84 does not fire, no terminal error is raised, and the endpoint
(taken past the unrelated `search_multiple` keyword `TypeError`) returns a
complete 200 response with zero total results and an empty citation list —
not the single service-level failure the claim requires. -/
theorem all_timeouts_returns_empty_response :
    rrsAllTimeout.length = acmeQueries.length
      ∧ rrsAllTimeout.all (fun r => r.results.isEmpty) = true
      ∧ endpointAfterResearch llmOk reqAcme rrsAllTimeout
        = .ok ⟨"Acme", none, [], [], "SUMMARY", "SUMMARY", "SUMMARY", none,
               [], rrsAllTimeout, 0⟩ := by
  refine ⟨by decide, by decide, by rfl⟩

/-- Phase of one gathered task of `search_multiple`: waiting for a semaphore
permit, holding a permit with its search call in flight, or finished with its
recorded result. -/
inductive TaskPhase
  | waiting
  | inFlight
  | done (r : ResearchResult)
deriving DecidableEq, Repr

/-- Number of tasks currently holding a permit, i.e. outbound search calls in
flight. -/
def inFlightCount {n : ℕ} (st : Fin n → TaskPhase) : ℕ :=
  (Finset.univ.filter fun i => st i = TaskPhase.inFlight).card

/-- Initial state of a batch: every task waiting for a permit. -/
def semaphoreInit (n : ℕ) : Fin n → TaskPhase := fun _ => TaskPhase.waiting

/-- One scheduler step of `search_multiple`'s gathered tasks under
`asyncio.Semaphore(k)` (`tavily_service.py`, lines 147-153): a waiting task
enters `async with semaphore` only while fewer than `k` permits are held; a
task in flight may complete in any order, recording exactly the value `search`
returns for its own task under the provider behaviour `env`, and releasing its
permit. -/
inductive SemStep (k : ℕ) (tasks : List (String × Bool)) (env : ℕ → CallOutcome) :
    (Fin tasks.length → TaskPhase) → (Fin tasks.length → TaskPhase) → Prop
  | acquire (st : Fin tasks.length → TaskPhase) (i : Fin tasks.length)
      (hw : st i = TaskPhase.waiting) (hcap : inFlightCount st < k) :
      SemStep k tasks env st (Function.update st i TaskPhase.inFlight)
  | finish (st : Fin tasks.length → TaskPhase) (i : Fin tasks.length)
      (hf : st i = TaskPhase.inFlight) :
      SemStep k tasks env st
        (Function.update st i (TaskPhase.done (search (tasks.get i).1 (env i))))

/-- States reachable from the all-waiting initial state by any interleaving. -/
def SemReachable (k : ℕ) (tasks : List (String × Bool)) (env : ℕ → CallOutcome)
    (st : Fin tasks.length → TaskPhase) : Prop :=
  Relation.ReflTransGen (SemStep k tasks env) (semaphoreInit tasks.length) st

lemma inFlightCount_update_acquire {n : ℕ} (st : Fin n → TaskPhase) (i : Fin n)
    (h : st i ≠ TaskPhase.inFlight) :
    inFlightCount (Function.update st i TaskPhase.inFlight) = inFlightCount st + 1 := by
  rw [inFlightCount, inFlightCount]
  have hset : (Finset.univ.filter fun j => Function.update st i TaskPhase.inFlight j
        = TaskPhase.inFlight)
      = insert i (Finset.univ.filter fun j => st j = TaskPhase.inFlight) := by
    ext j
    by_cases hj : j = i
    · subst hj; simp [Function.update_same]
    · simp [Function.update_noteq hj, hj]
  rw [hset, Finset.card_insert_of_not_mem (by simp [h])]

lemma inFlightCount_update_finish {n : ℕ} (st : Fin n → TaskPhase) (i : Fin n)
    (r : ResearchResult) (h : st i = TaskPhase.inFlight) :
    inFlightCount (Function.update st i (TaskPhase.done r)) + 1 = inFlightCount st := by
  rw [inFlightCount, inFlightCount]
  have hset : (Finset.univ.filter fun j => Function.update st i (TaskPhase.done r) j
        = TaskPhase.inFlight)
      = (Finset.univ.filter fun j => st j = TaskPhase.inFlight).erase i := by
    ext j
    by_cases hj : j = i
    · subst hj; simp [Function.update_same]
    · simp [Function.update_noteq hj, hj]
  rw [hset, Finset.card_erase_add_one (by simp [h])]

lemma search_multiple_get? (env : ℕ → CallOutcome) (queries : List String)
    (i : Fin (expandTasks queries).length) :
    (search_multiple env queries).get? i.1
      = some (search ((expandTasks queries).get i).1 (env i.1)) := by
  rw [search_multiple, List.get?_eq_getElem?, List.getElem?_map, List.getElem?_enum,
    List.getElem?_eq_getElem i.2]
  simp [List.get_eq_getElem]

/-- C10: under a semaphore with `k` permits, every state of `search_multiple`'s
batch reachable by any interleaving has at most `k` search calls in flight,
and the permit counter only gates admission — it never alters the data
returned: whatever the schedule, the result a task records is exactly the
corresponding element of `search_multiple`'s output for the same provider
behaviour. -/
theorem semaphore_bound (k : ℕ) (queries : List String) (env : ℕ → CallOutcome)
    (st : Fin (expandTasks queries).length → TaskPhase)
    (h : SemReachable k (expandTasks queries) env st) :
    inFlightCount st ≤ k
      ∧ ∀ (i : Fin (expandTasks queries).length) (r : ResearchResult),
          st i = TaskPhase.done r
          → (search_multiple env queries).get? i.1 = some r := by
  induction h with
  | refl =>
      constructor
      · have hempty : (Finset.univ.filter
            fun i : Fin (expandTasks queries).length =>
              semaphoreInit (expandTasks queries).length i = TaskPhase.inFlight) = ∅ := by
          ext j; simp [semaphoreInit]
        rw [inFlightCount, hempty]
        simp
      · intro i r hir
        exact absurd hir (by simp [semaphoreInit])
  | tail hsteps hstep ih =>
      obtain ⟨ihccount, ihdone⟩ := ih
      cases hstep with
      | acquire i hw hcap =>
          constructor
          · rw [inFlightCount_update_acquire _ i (by rw [hw]; decide)]
            omega
          · intro j r hjr
            by_cases hj : j = i
            · subst hj; rw [Function.update_same] at hjr; cases hjr
            · rw [Function.update_noteq hj] at hjr
              exact ihdone j r hjr
      | finish i hf =>
          constructor
          · have hcnt := inFlightCount_update_finish _ i
              (search ((expandTasks queries).get i).1 (env i)) hf
            omega
          · intro j r hjr
            by_cases hj : j = i
            · subst hj
              rw [Function.update_same] at hjr
              cases hjr
              exact search_multiple_get? env queries j
            · rw [Function.update_noteq hj] at hjr
              exact ihdone j r hjr

/-- C10 witness: a concrete two-step schedule (task 0 acquires the permit,
then finishes) of the batch `["alpha"]` under the configured cap of 5; the
reached state respects the bound and its recorded result matches the
executor's output. -/
theorem semaphore_bound_witness :
    inFlightCount
        (Function.update
          (Function.update (semaphoreInit (expandTasks ["alpha"]).length)
            ⟨0, by decide⟩ TaskPhase.inFlight)
          ⟨0, by decide⟩
          (TaskPhase.done
            (search ((expandTasks ["alpha"]).get ⟨0, by decide⟩).1 (envTimeoutAll 0))))
        ≤ MAX_CONCURRENT_SEARCHES
      ∧ ∀ (i : Fin (expandTasks ["alpha"]).length) (r : ResearchResult),
          (Function.update
            (Function.update (semaphoreInit (expandTasks ["alpha"]).length)
              ⟨0, by decide⟩ TaskPhase.inFlight)
            ⟨0, by decide⟩
            (TaskPhase.done
              (search ((expandTasks ["alpha"]).get ⟨0, by decide⟩).1 (envTimeoutAll 0))))
            i = TaskPhase.done r
          → (search_multiple envTimeoutAll ["alpha"]).get? i.1 = some r :=
  semaphore_bound MAX_CONCURRENT_SEARCHES ["alpha"] envTimeoutAll _
    (Relation.ReflTransGen.tail
      (Relation.ReflTransGen.single
        (SemStep.acquire _ ⟨0, by decide⟩ rfl (by decide)))
      (SemStep.finish _ ⟨0, by decide⟩ (by simp [Function.update_same])))

end CompanyResearch
